import Mathlib

/-!
Verification of the sshctl mux-protocol client (Go) against its
natural-language specification, via a shallow embedding in Lean 4.

Conventions of the embedding:
* Go byte slices are `List Nat` with each element a byte value (0..255);
  big-endian 32-bit encoding/decoding is explicit arithmetic.
* A connection's incoming byte stream is the `List Nat` of bytes that the
  peer sends before closing the connection; a blocking read that runs out
  of stream bytes is the transport read error / EOF case.
* Go `int` values that can be negative (`Waitmsg.status`, session ids)
  are `Int`; values popped from the wire are non-negative and fit uint32.
* Fallible Go functions returning `(T, error)` become `Except MuxErr T`;
  `error` results that the program only propagates are collapsed into the
  constructors of `MuxErr`.
-/

/-- Error kinds produced by the mux client (mux.go); each constructor
stands for one `fmt.Errorf` site or propagated transport failure. -/
inductive MuxErr where
  /-- transport read failure (`Unable to read from control socket`). -/
  | readErr : MuxErr
  /-- `buffer too short` from `packetPopInt` (mux.go line 78). -/
  | shortBuffer : MuxErr
  /-- `Incompatible Hello packet received` (mux.go line 122). -/
  | incompatibleHello : MuxErr
  /-- `Expected ALIVE, got: ...` / `Expected muxSessionOpened, got: ...`,
  carrying the offending type code. -/
  | unexpectedReply (got : Nat) : MuxErr
  /-- `out of sequence reply: ...`; the code formats `msgs[0]` (the type
  code) into the message, which we record as the payload. -/
  | outOfSequence (got : Nat) : MuxErr
deriving DecidableEq, Repr

/-- Big-endian 4-byte encoding of a 32-bit value, the bytes written by
`binary.BigEndian.PutUint32` for `uint32(n)`. -/
def be32enc (n : Nat) : List Nat :=
  [n / 16777216 % 256, n / 65536 % 256, n / 256 % 256, n % 256]

/-- Value read by `binary.BigEndian.Uint32` from four bytes. -/
def be32dec4 (a b c d : Nat) : Nat :=
  ((a * 256 + b) * 256 + c) * 256 + d

/-- The single byte message assembled by `writePacket` (mux.go lines 66-74):
the 4-byte big-endian payload length followed by the payload. -/
def packetOf (payload : List Nat) : List Nat :=
  be32enc (payload.length % 4294967296) ++ payload

/-- `writePacket` (mux.go lines 66-74) as a write trace: the list of
`Write` calls it issues on the control connection, each element one call's
bytes.  The source assembles length prefix and payload into one buffer and
issues a single `Write`. -/
def writePacket (payload : List Nat) : List (List Nat) :=
  [packetOf payload]

/-- `packetPopInt` (mux.go lines 76-83): take one big-endian uint32 off the
front of a buffer, failing when fewer than 4 bytes remain.  (The Go
function also returns -1 alongside the error; callers that use that value
are modelled at the call site.) -/
def packetPopInt : List Nat → Except MuxErr (Nat × List Nat)
  | a :: b :: c :: d :: rest => .ok (be32dec4 a b c d, rest)
  | _ => .error .shortBuffer

/-- `readPacket` (mux.go lines 50-64) over the remaining incoming stream:
read a 4-byte big-endian length, then exactly that many payload bytes,
returning the payload and the unread remainder of the stream.  Running out
of stream bytes is the `ReadAtLeast` error case. -/
def readPacket (stream : List Nat) : Except MuxErr (List Nat × List Nat) :=
  match stream with
  | a :: b :: c :: d :: rest =>
    if rest.length < be32dec4 a b c d then .error .readErr
    else .ok (rest.take (be32dec4 a b c d), rest.drop (be32dec4 a b c d))
  | _ => .error .readErr

/-- The pop loop inside `recvInts` (mux.go lines 92-98): pop `count`
uint32 fields off a packet, collecting them in order. -/
def popInts : Nat → List Nat → Except MuxErr (List Nat × List Nat)
  | 0, buf => .ok ([], buf)
  | count + 1, buf =>
    match packetPopInt buf with
    | .error e => .error e
    | .ok (msg, buf2) =>
      match popInts count buf2 with
      | .error e => .error e
      | .ok (msgs, buf3) => .ok (msg :: msgs, buf3)

/-- `recvInts` (mux.go lines 85-100): read one packet and pop `count`
uint32 fields from it; extra packet bytes are ignored. -/
def recvInts (count : Nat) (stream : List Nat) :
    Except MuxErr (List Nat × List Nat) :=
  match readPacket stream with
  | .error e => .error e
  | .ok (pkt, rest) =>
    match popInts count pkt with
    | .error e => .error e
    | .ok (msgs, _) => .ok (msgs, rest)

/-! ### Mux protocol constants (mux.go lines 20-30) -/

def muxVersion : Nat := 4
def muxMsgHello : Nat := 1
def muxNewSession : Nat := 0x10000002
def muxAliveCheck : Nat := 0x10000004
def muxIsAlive : Nat := 0x80000005
def muxSessionOpened : Nat := 0x80000006
def muxTtyAllocFail : Nat := 0x80000008
def muxExitMessage : Nat := 0x80000004

/-- The `muxMsg` struct (mux.go lines 45-48): a request type code and one
uint32 parameter. -/
structure MuxMsgM where
  Request : Nat
  Param : Nat
deriving DecidableEq, Repr

/-- `ssh.Marshal` applied to a `muxMsg`: two big-endian uint32 fields in
declaration order. -/
def marshalMuxMsg (m : MuxMsgM) : List Nat :=
  be32enc m.Request ++ be32enc m.Param

/-- The `muxNewSessionMsg` struct (mux.go lines 32-43). -/
structure MuxNewSessionMsgM where
  Request : Nat
  RequestId : Nat
  ReservedStr : String
  TtyFlags : Nat
  ForwardX11 : Nat
  ForwardAgent : Nat
  SubSystemFlag : Nat
  EscapeChar : Nat
  Term : String
  Command : String
deriving DecidableEq, Repr

/-- The message built by `sshMuxNewSession` (mux.go lines 159-172) from the
session's request id, terminal type and command string. -/
def mkNewSessionMsg (reqid : Nat) (term cmd : String) : MuxNewSessionMsgM :=
  { Request := muxNewSession
    RequestId := reqid
    ReservedStr := ""
    EscapeChar := 0xffffffff
    Term := if term = "" then "" else term
    TtyFlags := if term = "" then 0 else 1
    ForwardX11 := 0
    ForwardAgent := 0
    SubSystemFlag := 0
    Command := cmd }

/-- `sshMuxHello` (mux.go lines 114-132): receive two uint32 fields, fail
with the incompatible-hello error unless they are (Hello, version 4), and
reply by writing the marshalled (Hello, version 4) pair.  Returns the write
trace and the remaining incoming stream. -/
def sshMuxHello (stream : List Nat) :
    Except MuxErr (List (List Nat) × List Nat) :=
  match recvInts 2 stream with
  | .error e => .error e
  | .ok (msgs, rest) =>
    if msgs.getD 0 0 ≠ muxMsgHello ∨ msgs.getD 1 0 ≠ muxVersion then
      .error .incompatibleHello
    else
      .ok (writePacket (marshalMuxMsg ⟨muxMsgHello, muxVersion⟩), rest)

/-- `sshMuxAliveCheck` (mux.go lines 134-157): send {AliveCheck, reqid},
receive three uint32 fields, require type IsAlive and an echoed request
id, then increment the request id.  Returns the sent message, the
incremented request id and the remaining stream. -/
def sshMuxAliveCheck (reqid : Nat) (stream : List Nat) :
    Except MuxErr (MuxMsgM × Nat × List Nat) :=
  match recvInts 3 stream with
  | .error e => .error e
  | .ok (msgs, rest) =>
    if msgs.getD 0 0 ≠ muxIsAlive then .error (.unexpectedReply (msgs.getD 0 0))
    else if msgs.getD 1 0 ≠ reqid then .error (.outOfSequence (msgs.getD 0 0))
    else .ok (⟨muxAliveCheck, reqid⟩, reqid + 1, rest)

/-- Reply handling of `sshMuxPassFileDescriptors` (mux.go lines 179-227):
after the three descriptors are passed (an OS-level side effect outside
this embedding), receive three uint32 fields, require type SessionOpened
and an echoed request id, record the session id and increment the request
id. -/
def sshMuxPassFileDescriptors (reqid : Nat) (stream : List Nat) :
    Except MuxErr (Nat × Nat × List Nat) :=
  match recvInts 3 stream with
  | .error e => .error e
  | .ok (msgs, rest) =>
    if msgs.getD 0 0 ≠ muxSessionOpened then
      .error (.unexpectedReply (msgs.getD 0 0))
    else if msgs.getD 1 0 ≠ reqid then .error (.outOfSequence (msgs.getD 0 0))
    else .ok (msgs.getD 2 0, reqid + 1, rest)

/-- Observable protocol outcome of a successful `requestMuxSession` run:
what was sent, the assigned session id, and the final request-id counter. -/
structure HandshakeTrace where
  helloWrites : List (List Nat)
  aliveSent : MuxMsgM
  newSessionSent : MuxNewSessionMsgM
  ctrlSessid : Nat
  ctrlReqidFinal : Nat
deriving DecidableEq, Repr

/-- `requestMuxSession` (mux.go lines 243-277): reset the request id to 0,
then Hello, AliveCheck, NewSession and the descriptor hand-off reply, each
propagating its error.  Terminal raw-mode setup and pipe closing (lines
259-275) have no protocol-visible effect and are omitted. -/
def requestMuxSession (term cmd : String) (stream : List Nat) :
    Except MuxErr HandshakeTrace :=
  match sshMuxHello stream with
  | .error e => .error e
  | .ok (w, s1) =>
    match sshMuxAliveCheck 0 s1 with
    | .error e => .error e
    | .ok (alive, reqid1, s2) =>
      match sshMuxPassFileDescriptors reqid1 s2 with
      | .error e => .error e
      | .ok (sessid, reqid2, s3) =>
        let _ := s3
        .ok { helloWrites := w
              aliveSent := alive
              newSessionSent := mkNewSessionMsg reqid1 term cmd
              ctrlSessid := sessid
              ctrlReqidFinal := reqid2 }

/-! ### The exit-status reader (mux.go lines 279-336) and Waitmsg -/

/-- The `Waitmsg` struct (session source, lines 378-383). -/
structure Waitmsg where
  status : Int
  signal : String
  msg : String
  lang : String
deriving DecidableEq, Repr

/-- `Waitmsg.ExitStatus` getter. -/
def Waitmsg.ExitStatus (w : Waitmsg) : Int := w.status

/-- `Waitmsg.Signal` getter: the exit signal of the remote command. -/
def Waitmsg.Signal (w : Waitmsg) : String := w.signal

/-- `Waitmsg.Msg` getter. -/
def Waitmsg.Msg (w : Waitmsg) : String := w.msg

/-- `Waitmsg.Lang` getter: the RFC 3066 language tag. -/
def Waitmsg.Lang (w : Waitmsg) : String := w.lang

/-- The `Waitmsg{status: -1}` literal initialising the reader loop
(mux.go line 280). -/
def waitmsgInit : Waitmsg := { status := -1, signal := "", msg := "", lang := "" }

/-- The `fmt.Sprintf("unknown session id: myid %d theirs %d", ...)`
string (mux.go lines 300 and 308). -/
def mkUnknownSidMsg (myid theirs : Int) : String :=
  "unknown session id: myid " ++ toString myid ++ " theirs " ++ toString theirs

/-- Effect of one reader-loop iteration on the loop state: either the loop
continues with updated state, or the `for` terminates. -/
inductive StepRes where
  | cont (wm : Waitmsg) (seen : Bool) : StepRes
  | stop (wm : Waitmsg) (seen : Bool) : StepRes
deriving DecidableEq, Repr

/-- Whether a step terminated the reader loop. -/
def StepRes.isStop : StepRes → Bool
  | .stop _ _ => true
  | .cont _ _ => false

/-- One iteration of the `wait` reader loop (mux.go lines 286-324) on the
session id `sessid`, the current Waitmsg and `exit_seen` flag, and the
result of `readPacket` (`none` is a transport read error / closed
connection).  The two leading `break` statements (read failure, short
leading type field) terminate the `for` loop; every `break` inside the
`switch` statement only leaves the `switch`, so all dispatch arms continue
the loop (Go semantics of `break` inside `switch`).  In the ExitMessage
arm, a short status field stores -1 into `wm.status` because in Go the
assignment `wm.status, err = packetPopInt(&buf)` happens before the error
check and `packetPopInt` returns -1 on failure. -/
def waitStep (sessid : Int) (wm : Waitmsg) (seen : Bool) :
    Option (List Nat) → StepRes
  | none => .stop wm seen
  | some pkt =>
    match packetPopInt pkt with
    | .error _ => .stop wm seen
    | .ok (mtype, buf) =>
      if mtype = muxTtyAllocFail then
        match packetPopInt buf with
        | .error _ => .cont wm seen
        | .ok (sid, _) =>
          if (sid : Int) ≠ sessid then
            .cont { wm with msg := mkUnknownSidMsg sessid sid } seen
          else .cont wm seen
      else if mtype = muxExitMessage then
        match packetPopInt buf with
        | .error _ => .cont wm seen
        | .ok (sid, buf2) =>
          if (sid : Int) ≠ sessid then
            .cont { wm with msg := mkUnknownSidMsg sessid sid } seen
          else if seen then
            .cont { wm with msg := "exit seen twice" } seen
          else
            match packetPopInt buf2 with
            | .error _ => .cont { wm with status := -1 } seen
            | .ok (st, _) => .cont { wm with status := (st : Int) } true
      else
        .cont wm seen

/-- The `wait` reader loop run to completion over the list of packets the
transport delivers before the connection closes; returns the final
Waitmsg. -/
def waitLoop (sessid : Int) (wm : Waitmsg) (seen : Bool) :
    List (List Nat) → Waitmsg
  | [] =>
    match waitStep sessid wm seen none with
    | .stop w _ => w
    | .cont w _ => w
  | pkt :: rest =>
    match waitStep sessid wm seen (some pkt) with
    | .stop w _ => w
    | .cont w s => waitLoop sessid w s rest

/-- The Waitmsg recorded by a full run of the reader loop from its initial
state. -/
def waitFinalWm (sessid : Int) (pkts : List (List Nat)) : Waitmsg :=
  waitLoop sessid waitmsgInit false pkts

/-- The outcome `wait` delivers into the exit-status slot consumed by
`Wait`. -/
inductive WaitOutcome where
  /-- `nil` (mux.go line 327). -/
  | success : WaitOutcome
  /-- `&ExitMissingError{}` (mux.go line 331). -/
  | exitMissing : WaitOutcome
  /-- `&ExitError{wm}` carrying the Waitmsg (mux.go line 335). -/
  | exitError (wm : Waitmsg) : WaitOutcome
deriving DecidableEq, Repr

/-- `wait` (mux.go lines 279-336): run the reader loop, then classify the
recorded status (lines 326-335): 0 is success, -1 the exit-status-missing
error, anything else a remote-exit error carrying the Waitmsg. -/
def waitGo (sessid : Int) (pkts : List (List Nat)) : WaitOutcome :=
  if (waitFinalWm sessid pkts).status = 0 then .success
  else if (waitFinalWm sessid pkts).status = -1 then .exitMissing
  else .exitError (waitFinalWm sessid pkts)

/-! ### Session lifecycle (session source, part_000) -/

/-- Lifecycle-relevant state of a `Session` (part_000 lines 30-78).
Channels are `Option Nat`: `none` is a nil Go channel (a send on it blocks
forever); `some n` is an allocated channel of capacity 1 currently
holding `n` buffered values.  File/connection fields are tracked as
nil-ness plus a closed flag; the I/O they carry is outside this
embedding. -/
structure SessionSt where
  sshctlpath : String
  started : Bool
  term : String
  ctrlconnNil : Bool
  ctrlconnClosed : Bool
  lmuxStdoutNil : Bool
  lmuxStdoutClosed : Bool
  lmuxStderrNil : Bool
  lmuxStderrClosed : Bool
  abortedChan : Option Nat
  exitStatusChan : Option Nat
deriving DecidableEq, Repr

/-- `NewSession(path)` (part_000 lines 25-28): a zero Session with only
the control path set; all pointers and channels are nil. -/
def NewSessionGo (path : String) : SessionSt :=
  { sshctlpath := path
    started := false
    term := ""
    ctrlconnNil := true
    ctrlconnClosed := false
    lmuxStdoutNil := true
    lmuxStdoutClosed := false
    lmuxStderrNil := true
    lmuxStderrClosed := false
    abortedChan := none
    exitStatusChan := none }

/-- `RequestPty` (part_000 lines 128-131): record the terminal type and
return nil; no state is checked. -/
def RequestPty (s : SessionSt) (term : String) : SessionSt × Option String :=
  ({ s with term := term }, none)

/-- Channel and flag effects of a successful `Start` (part_000 lines
83-101): the control connection is opened, `exitStatus` and `aborted` are
allocated as capacity-1 buffered channels, and `s.start()` sets the
started flag.  The handshake and copy-task I/O are modelled separately. -/
def StartGo (s : SessionSt) : SessionSt × Option String :=
  if s.started then (s, some "ssh: session already started")
  else
    ({ s with ctrlconnNil := false
              exitStatusChan := some 0
              abortedChan := some 0
              started := true }, none)

/-- Channel and flag effects of a successful `Shell` (part_000 lines
135-152): like `Start` with an empty command, but only `exitStatus` is
allocated — `Shell` never allocates the `aborted` channel. -/
def ShellGo (s : SessionSt) : SessionSt × Option String :=
  if s.started then (s, some "ssh: session already started")
  else
    ({ s with ctrlconnNil := false
              exitStatusChan := some 0
              started := true }, none)

/-- A send `ch <- v` on a capacity-1 buffered channel: `none` when the
send blocks forever (nil channel, or the buffer slot is already full). -/
def chanSend (ch : Option Nat) : Option (Option Nat) :=
  match ch with
  | none => none
  | some n => if n < 1 then some (some (n + 1)) else none

/-- `Close` (part_000 lines 103-125): close the control connection if
non-nil, close the stderr then stdout relays if non-nil, then send one
value into the `aborted` channel, and return nil.  The result is `none`
when `Close` never returns because the final send blocks. -/
def CloseGo (s : SessionSt) : Option (SessionSt × Option String) :=
  let s1 := if s.ctrlconnNil then s else { s with ctrlconnClosed := true }
  let s2 := if s1.lmuxStderrNil then s1 else { s1 with lmuxStderrClosed := true }
  let s3 := if s2.lmuxStdoutNil then s2 else { s2 with lmuxStdoutClosed := true }
  match chanSend s3.abortedChan with
  | none => none
  | some ch => some ({ s3 with abortedChan := ch }, none)

/-- An ExitMessage notification packet for session `sid` with status `st`,
used to exercise the reader loop. -/
def exitPkt (sid st : Nat) : List Nat :=
  be32enc muxExitMessage ++ (be32enc sid ++ be32enc st)

/-! ### Helper lemmas -/

theorem be32dec4_be32enc (n : Nat) :
    be32dec4 (n / 16777216 % 256) (n / 65536 % 256) (n / 256 % 256) (n % 256)
      = n % 4294967296 := by
  unfold be32dec4
  omega

theorem packetPopInt_enc (n : Nat) (rest : List Nat) (h : n < 4294967296) :
    packetPopInt (be32enc n ++ rest) = .ok (n, rest) := by
  simp only [be32enc, List.cons_append, List.nil_append, packetPopInt,
    be32dec4_be32enc]
  rw [Nat.mod_eq_of_lt h]

theorem packetPopInt_short (buf : List Nat) (h : buf.length < 4) :
    packetPopInt buf = .error .shortBuffer := by
  match buf with
  | [] => rfl
  | [_] => rfl
  | [_, _] => rfl
  | [_, _, _] => rfl
  | _ :: _ :: _ :: _ :: _ => simp [List.length_cons] at h; omega

theorem readPacket_packetOf (p rest : List Nat) (h : p.length < 4294967296) :
    readPacket (packetOf p ++ rest) = .ok (p, rest) := by
  have hlen : p.length % 4294967296 = p.length := Nat.mod_eq_of_lt h
  simp only [packetOf, be32enc, List.cons_append, List.nil_append, readPacket,
    be32dec4_be32enc, hlen, List.length_append]
  rw [if_neg (by omega)]
  rw [List.take_left, List.drop_left]

/-! ### Claim theorems -/

/-- C7: decoding a uint32 field via `packetPopInt` fails with the
short-buffer error whenever fewer than 4 bytes remain; otherwise it
returns the big-endian value of the first 4 bytes and consumes exactly
those 4 bytes.  The last conjunct carries this to the count fields popped
by `recvInts`: its pop loop fails the same way on a too-short buffer. -/
theorem c7_packet_pop_int (buf : List Nat) :
    (buf.length < 4 → packetPopInt buf = .error .shortBuffer) ∧
    (∀ a b c d rest, buf = a :: b :: c :: d :: rest →
      packetPopInt buf = .ok (be32dec4 a b c d, rest) ∧ rest = buf.drop 4) ∧
    (∀ count buf2, 1 ≤ count → buf2.length < 4 →
      popInts count buf2 = .error .shortBuffer) := by
  refine ⟨packetPopInt_short buf, ?_, ?_⟩
  · rintro a b c d rest rfl
    exact ⟨rfl, rfl⟩
  · intro count buf2 hc hl
    match count, hc with
    | n + 1, _ =>
      show popInts (n + 1) buf2 = .error .shortBuffer
      unfold popInts
      rw [packetPopInt_short buf2 hl]

/-- C7 witness: concrete evaluations of both branches and of the pop
loop. -/
theorem c7_packet_pop_int_witness :
    packetPopInt [1, 2, 3] = .error .shortBuffer ∧
    packetPopInt [0, 0, 1, 0, 9] = .ok (256, [9]) ∧
    popInts 2 [5] = .error .shortBuffer := by
  refine ⟨(c7_packet_pop_int [1, 2, 3]).1 (by decide), ?_, ?_⟩
  · exact ((c7_packet_pop_int [0, 0, 1, 0, 9]).2.1 0 0 1 0 [9] rfl).1
  · exact (c7_packet_pop_int []).2.2 2 [5] (by decide) (by decide)

/-- C8: `writePacket p` issues a single write consisting of exactly the
4-byte big-endian length of `p` followed by the bytes of `p`, and
`readPacket` applied to exactly that byte sequence returns `p`. -/
theorem c8_framing_roundtrip (p : List Nat) (h : p.length < 4294967296) :
    writePacket p = [be32enc p.length ++ p] ∧
    readPacket (be32enc p.length ++ p) = .ok (p, []) := by
  have hlen : p.length % 4294967296 = p.length := Nat.mod_eq_of_lt h
  constructor
  · simp [writePacket, packetOf, hlen]
  · have h2 := readPacket_packetOf p [] h
    simpa [packetOf, hlen] using h2

/-- C8 witness: the roundtrip at a concrete payload. -/
theorem c8_framing_roundtrip_witness :
    writePacket [7, 8, 9] = [[0, 0, 0, 3, 7, 8, 9]] ∧
    readPacket [0, 0, 0, 3, 7, 8, 9] = .ok ([7, 8, 9], []) := by
  exact c8_framing_roundtrip [7, 8, 9] (by decide)

/-- C10: `RequestPty` never returns an error and performs no state check:
on any Session, in any state, it returns nil and overwrites the recorded
terminal type; a later call overwrites an earlier one, and the NewSession
message built at handshake time depends only on the terminal type then in
place. -/
theorem c10_request_pty (s : SessionSt) (t t' cmd : String) (r : Nat) :
    (RequestPty s t).2 = none ∧
    (RequestPty s t).1.term = t ∧
    (RequestPty s t).1.started = s.started ∧
    RequestPty (RequestPty s t).1 t' = RequestPty s t' ∧
    mkNewSessionMsg r (RequestPty s t).1.term cmd = mkNewSessionMsg r t cmd := by
  exact ⟨rfl, rfl, rfl, rfl, rfl⟩

/-- C2 (code bug): evaluating `Close` on each lifecycle state.  On a fresh
session and on one started via `Shell`, the final `s.aborted <- true`
sends on a nil channel and blocks forever (result `none`), so `Close`
never returns at all; only after `Start`, which allocates the buffered
`aborted` channel, does `Close` post the abort signal and return nil as
the claim describes. -/
theorem c2_close_blocks_eval :
    CloseGo (NewSessionGo "sock") = none ∧
    CloseGo (ShellGo (NewSessionGo "sock")).1 = none ∧
    CloseGo (StartGo (NewSessionGo "sock")).1 =
      some ({ (StartGo (NewSessionGo "sock")).1 with
                ctrlconnClosed := true
                abortedChan := some 1 }, none) := by
  exact ⟨rfl, rfl, rfl⟩

/-- C1: for every terminated run of the exit-status reader loop, the
outcome delivered to Wait is determined by the recorded status: status 0
yields the nil outcome, status still -1 yields the distinct
exit-status-missing error kind (never silent success), and any other
status yields a remote-exit error carrying the full Waitmsg.  The last
conjunct is the no-exit-notification run (connection closed before any
packet). -/
theorem c1_wait_outcome (sessid : Int) (pkts : List (List Nat)) :
    ((waitFinalWm sessid pkts).status = 0 → waitGo sessid pkts = .success) ∧
    ((waitFinalWm sessid pkts).status = -1 →
      waitGo sessid pkts = .exitMissing) ∧
    ((waitFinalWm sessid pkts).status ≠ 0 →
      (waitFinalWm sessid pkts).status ≠ -1 →
      waitGo sessid pkts = .exitError (waitFinalWm sessid pkts)) ∧
    waitGo sessid [] = .exitMissing := by
  refine ⟨?_, ?_, ?_, rfl⟩
  · intro h
    simp [waitGo, h]
  · intro h
    simp [waitGo, h]
  · intro h0 h1
    simp [waitGo, h0, h1]

/-- C1 witness: the three outcomes at concrete packet lists. -/
theorem c1_wait_outcome_witness :
    waitGo 3 [exitPkt 3 0] = .success ∧
    waitGo 3 [] = .exitMissing ∧
    waitGo 3 [exitPkt 3 7] =
      .exitError { status := 7, signal := "", msg := "", lang := "" } := by
  refine ⟨(c1_wait_outcome 3 [exitPkt 3 0]).1 (by decide),
          (c1_wait_outcome 3 []).2.2.2, ?_⟩
  have h := (c1_wait_outcome 3 [exitPkt 3 7]).2.2.1 (by decide) (by decide)
  have he : waitFinalWm 3 [exitPkt 3 7] =
      { status := 7, signal := "", msg := "", lang := "" } := by decide
  rw [he] at h
  exact h

theorem waitStep_sig_lang (sessid : Int) (wm : Waitmsg) (seen : Bool)
    (pkt? : Option (List Nat)) (w : Waitmsg) (s : Bool)
    (h : waitStep sessid wm seen pkt? = .cont w s ∨
         waitStep sessid wm seen pkt? = .stop w s) :
    w.signal = wm.signal ∧ w.lang = wm.lang := by
  unfold waitStep at h
  rcases pkt? with _ | pkt
  · rcases h with h | h <;> simp_all
  · rcases h with h | h <;>
    · repeat' split at h
      all_goals simp only [StepRes.cont.injEq, StepRes.stop.injEq,
        reduceCtorEq] at h
      all_goals obtain ⟨h1, h2⟩ := h
      all_goals subst h1
      all_goals exact ⟨rfl, rfl⟩

theorem waitLoop_sig_lang (sessid : Int) (pkts : List (List Nat)) :
    ∀ (wm : Waitmsg) (seen : Bool),
      (waitLoop sessid wm seen pkts).signal = wm.signal ∧
      (waitLoop sessid wm seen pkts).lang = wm.lang := by
  induction pkts with
  | nil => intro wm seen; exact ⟨rfl, rfl⟩
  | cons pkt rest ih =>
    intro wm seen
    unfold waitLoop
    rcases hs : waitStep sessid wm seen (some pkt) with ⟨w, s⟩ | ⟨w, s⟩
    · have h1 := waitStep_sig_lang sessid wm seen (some pkt) w s (Or.inl hs)
      exact ⟨(ih w s).1.trans h1.1, (ih w s).2.trans h1.2⟩
    · exact waitStep_sig_lang sessid wm seen (some pkt) w s (Or.inr hs)

/-- C9: the signal and lang fields of the Waitmsg built by the exit-status
reader are never assigned on any code path: for every run of the reader
loop the final Waitmsg has empty signal and lang, and whenever `wait`
returns an ExitError carrying a Waitmsg, its `Signal()` and `Lang()`
getters return the empty string. -/
theorem c9_signal_lang (sessid : Int) (pkts : List (List Nat)) :
    (waitFinalWm sessid pkts).signal = "" ∧
    (waitFinalWm sessid pkts).lang = "" ∧
    (∀ wm, waitGo sessid pkts = .exitError wm →
      Waitmsg.Signal wm = "" ∧ Waitmsg.Lang wm = "") := by
  have h := waitLoop_sig_lang sessid pkts waitmsgInit false
  refine ⟨h.1, h.2, ?_⟩
  intro wm hw
  have hwm : wm = waitFinalWm sessid pkts := by
    unfold waitGo at hw
    split_ifs at hw
    cases hw
    rfl
  subst hwm
  exact ⟨h.1, h.2⟩

/-- C9 witness: a signalled-looking remote exit at a concrete input still
carries empty signal and lang. -/
theorem c9_signal_lang_witness :
    Waitmsg.Signal { status := 9, signal := "", msg := "", lang := "" } = "" ∧
    Waitmsg.Lang { status := 9, signal := "", msg := "", lang := "" } = "" := by
  exact (c9_signal_lang 0 [exitPkt 0 9]).2.2
    { status := 9, signal := "", msg := "", lang := "" } (by decide)

/-- C3 counterexample: dispatching one packet at concrete inputs.  An
ExitMessage with matching session id (3) and no previously recorded
status records the exit status but continues the loop (a `.cont` result,
not `.stop`), and a packet with unknown leading type code 99 also
continues the loop without surfacing any error — in the Go source every
`break` inside the `switch` leaves only the `switch`, never the `for`, so
the claim's "stop the loop" behaviour does not occur at these inputs. -/
theorem c3_dispatch_cex :
    waitStep 3 waitmsgInit false (some (exitPkt 3 7)) =
      .cont { status := 7, signal := "", msg := "", lang := "" } true ∧
    (waitStep 3 waitmsgInit false (some (exitPkt 3 7))).isStop = false ∧
    waitStep 3 waitmsgInit false (some (be32enc 99 ++ be32enc 3)) =
      .cont waitmsgInit false ∧
    (waitStep 3 waitmsgInit false
        (some (be32enc 99 ++ be32enc 3))).isStop = false := by
  decide

/-- C3 (amended): when the exit-status reader dispatches one packet: an
ExitMessage with matching session id and no previously recorded status
records the exit status and continues reading; a packet with any
other/unknown leading type code is ignored and the loop continues without
surfacing an error; a TtyAllocFail with matching session id continues
reading.  The loop terminates only on a transport read error or when the
leading type field is shorter than 4 bytes. -/
theorem c3_dispatch_amended (sessid : Int) (wm : Waitmsg) (seen : Bool) :
    (∀ (sid st : Nat) (rest : List Nat), sid < 4294967296 →
      st < 4294967296 → (sid : Int) = sessid →
      waitStep sessid wm false
          (some (be32enc muxExitMessage ++ (be32enc sid ++ (be32enc st ++ rest)))) =
        .cont { wm with status := (st : Int) } true) ∧
    (∀ (mtype : Nat) (rest : List Nat), mtype < 4294967296 →
      mtype ≠ muxTtyAllocFail → mtype ≠ muxExitMessage →
      waitStep sessid wm seen (some (be32enc mtype ++ rest)) = .cont wm seen) ∧
    (∀ (sid : Nat) (rest : List Nat), sid < 4294967296 → (sid : Int) = sessid →
      waitStep sessid wm seen
          (some (be32enc muxTtyAllocFail ++ (be32enc sid ++ rest))) =
        .cont wm seen) ∧
    waitStep sessid wm seen none = .stop wm seen ∧
    (∀ pkt : List Nat, pkt.length < 4 →
      waitStep sessid wm seen (some pkt) = .stop wm seen) := by
  refine ⟨?_, ?_, ?_, rfl, ?_⟩
  · intro sid st rest hsid hst hm
    have h1 := packetPopInt_enc muxExitMessage
      (be32enc sid ++ (be32enc st ++ rest)) (by norm_num [muxExitMessage])
    have h2 := packetPopInt_enc sid (be32enc st ++ rest) hsid
    have h3 := packetPopInt_enc st rest hst
    simp only [waitStep, h1, h2, h3, hm]
    norm_num [muxExitMessage, muxTtyAllocFail]
  · intro mtype rest hlt h1 h2
    have hp := packetPopInt_enc mtype rest hlt
    simp only [waitStep, hp]
    rw [if_neg h1, if_neg h2]
  · intro sid rest hsid hm
    have h1 := packetPopInt_enc muxTtyAllocFail (be32enc sid ++ rest)
      (by norm_num [muxTtyAllocFail])
    have h2 := packetPopInt_enc sid rest hsid
    simp only [waitStep, h1, h2, hm]
    simp
  · intro pkt hlen
    simp only [waitStep, packetPopInt_short pkt hlen]

/-- C3 witness: the amended behaviours at concrete inputs. -/
theorem c3_dispatch_amended_witness :
    waitStep 5 waitmsgInit false (some (exitPkt 5 0)) =
      .cont { status := 0, signal := "", msg := "", lang := "" } true ∧
    waitStep 5 waitmsgInit true (some (be32enc 77 ++ [])) =
      .cont waitmsgInit true ∧
    waitStep 5 waitmsgInit true
        (some (be32enc muxTtyAllocFail ++ (be32enc 5 ++ []))) =
      .cont waitmsgInit true ∧
    waitStep 5 waitmsgInit false (some [1, 2]) = .stop waitmsgInit false := by
  have h := c3_dispatch_amended 5 waitmsgInit true
  have ha := (c3_dispatch_amended 5 waitmsgInit false).1 5 0 []
    (by decide) (by decide) (by decide)
  refine ⟨ha, ?_, ?_, ?_⟩
  · exact h.2.1 77 [] (by decide) (by decide) (by decide)
  · exact h.2.2.1 5 [] (by decide) (by decide)
  · exact (c3_dispatch_amended 5 waitmsgInit false).2.2.2.2 [1, 2] (by decide)

/-- C4 counterexample: with remote session id 5, a reader-loop ExitMessage
packet carrying session id 6 is not a hard failure: its diagnostic message
is recorded in the Waitmsg and the loop reads past it, so a later matching
ExitMessage with status 0 still makes `wait` deliver the nil (success)
outcome; with the mismatched packet alone the run ends as a plain
missing-exit-status outcome, not a session-id failure. -/
theorem c4_session_id_cex :
    waitGo 5 [exitPkt 6 9, exitPkt 5 0] = .success ∧
    (waitFinalWm 5 [exitPkt 6 9, exitPkt 5 0]).msg = mkUnknownSidMsg 5 6 ∧
    waitGo 5 [exitPkt 6 9] = .exitMissing := by
  decide

/-- C4 (amended): a reader-loop notification (TtyAllocFail or ExitMessage)
carrying a session id different from the assigned one does not terminate
the session: the loop records an unknown-session-id message in the Waitmsg
and continues reading past the packet, leaving status and the exit-seen
flag untouched. -/
theorem c4_session_id_amended (sessid : Int) (wm : Waitmsg) (seen : Bool) :
    (∀ (sid : Nat) (rest : List Nat), sid < 4294967296 → (sid : Int) ≠ sessid →
      waitStep sessid wm seen
          (some (be32enc muxTtyAllocFail ++ (be32enc sid ++ rest))) =
        .cont { wm with msg := mkUnknownSidMsg sessid sid } seen) ∧
    (∀ (sid : Nat) (rest : List Nat), sid < 4294967296 → (sid : Int) ≠ sessid →
      waitStep sessid wm seen
          (some (be32enc muxExitMessage ++ (be32enc sid ++ rest))) =
        .cont { wm with msg := mkUnknownSidMsg sessid sid } seen) := by
  constructor
  · intro sid rest hsid hne
    have h1 := packetPopInt_enc muxTtyAllocFail (be32enc sid ++ rest)
      (by norm_num [muxTtyAllocFail])
    have h2 := packetPopInt_enc sid rest hsid
    simp only [waitStep, h1, h2]
    simp [hne]
  · intro sid rest hsid hne
    have h1 := packetPopInt_enc muxExitMessage (be32enc sid ++ rest)
      (by norm_num [muxExitMessage])
    have h2 := packetPopInt_enc sid rest hsid
    simp only [waitStep, h1, h2]
    simp [hne]

/-- C4 witness: the amended behaviour at concrete inputs (session id 5,
packet session id 6). -/
theorem c4_session_id_amended_witness :
    waitStep 5 waitmsgInit false
        (some (be32enc muxTtyAllocFail ++ (be32enc 6 ++ []))) =
      .cont { waitmsgInit with msg := mkUnknownSidMsg 5 6 } false ∧
    waitStep 5 waitmsgInit false
        (some (be32enc muxExitMessage ++ (be32enc 6 ++ []))) =
      .cont { waitmsgInit with msg := mkUnknownSidMsg 5 6 } false := by
  have h := c4_session_id_amended 5 waitmsgInit false
  exact ⟨h.1 6 [] (by decide) (by decide), h.2 6 [] (by decide) (by decide)⟩

theorem sshMuxAliveCheck_ok (reqid : Nat) (stream : List Nat) (m : MuxMsgM)
    (r : Nat) (rest : List Nat)
    (h : sshMuxAliveCheck reqid stream = .ok (m, r, rest)) :
    m = ⟨muxAliveCheck, reqid⟩ ∧ r = reqid + 1 := by
  unfold sshMuxAliveCheck at h
  rcases hr : recvInts 3 stream with e | ⟨msgs, rst⟩ <;>
    simp only [hr, reduceCtorEq] at h
  split_ifs at h
  all_goals simp only [reduceCtorEq, Except.ok.injEq, Prod.mk.injEq] at h
  exact ⟨h.1.symm, h.2.1.symm⟩

theorem sshMuxPassFileDescriptors_ok (reqid : Nat) (stream : List Nat)
    (sessid r : Nat) (rest : List Nat)
    (h : sshMuxPassFileDescriptors reqid stream = .ok (sessid, r, rest)) :
    r = reqid + 1 := by
  unfold sshMuxPassFileDescriptors at h
  rcases hr : recvInts 3 stream with e | ⟨msgs, rst⟩ <;>
    simp only [hr, reduceCtorEq] at h
  split_ifs at h
  all_goals simp only [reduceCtorEq, Except.ok.injEq, Prod.mk.injEq] at h
  exact h.2.1.symm

/-- C5: the handshake's request ids start at 0 and increase by one per
request: on any successful `requestMuxSession` run the AliveCheck message
carried request id 0, the NewSession message request id 1, and the
counter ends at 2.  A reply whose echoed request id differs from the one
just sent makes the AliveCheck (or SessionOpened) step return the
out-of-sequence error, and any such step error is propagated as the
result of the whole handshake — an error return, not a hang. -/
theorem c5_request_ids (term cmd : String) (stream : List Nat) :
    (∀ tr, requestMuxSession term cmd stream = .ok tr →
      tr.aliveSent = ⟨muxAliveCheck, 0⟩ ∧ tr.newSessionSent.RequestId = 1 ∧
      tr.ctrlReqidFinal = 2) ∧
    (∀ msgs rest, recvInts 3 stream = .ok (msgs, rest) →
      msgs.getD 0 0 = muxIsAlive → ∀ reqid, msgs.getD 1 0 ≠ reqid →
      sshMuxAliveCheck reqid stream = .error (.outOfSequence muxIsAlive)) ∧
    (∀ msgs rest, recvInts 3 stream = .ok (msgs, rest) →
      msgs.getD 0 0 = muxSessionOpened → ∀ reqid, msgs.getD 1 0 ≠ reqid →
      sshMuxPassFileDescriptors reqid stream =
        .error (.outOfSequence muxSessionOpened)) ∧
    (∀ w s1 e, sshMuxHello stream = .ok (w, s1) →
      sshMuxAliveCheck 0 s1 = .error e →
      requestMuxSession term cmd stream = .error e) ∧
    (∀ w s1 m r1 s2 e, sshMuxHello stream = .ok (w, s1) →
      sshMuxAliveCheck 0 s1 = .ok (m, r1, s2) →
      sshMuxPassFileDescriptors r1 s2 = .error e →
      requestMuxSession term cmd stream = .error e) := by
  refine ⟨?_, ?_, ?_, ?_, ?_⟩
  · intro tr htr
    unfold requestMuxSession at htr
    rcases h1 : sshMuxHello stream with e | ⟨w, s1⟩ <;>
      simp only [h1, reduceCtorEq] at htr
    rcases h2 : sshMuxAliveCheck 0 s1 with e | ⟨m, r1, s2⟩ <;>
      simp only [h2, reduceCtorEq] at htr
    rcases h3 : sshMuxPassFileDescriptors r1 s2 with e | ⟨sd, r2, s3⟩ <;>
      simp only [h3, reduceCtorEq] at htr
    obtain ⟨hm, hr1⟩ := sshMuxAliveCheck_ok 0 s1 m r1 s2 h2
    have hr2 := sshMuxPassFileDescriptors_ok r1 s2 sd r2 s3 h3
    simp only [Except.ok.injEq] at htr
    subst htr
    subst hm
    subst hr1
    subst hr2
    refine ⟨rfl, ?_, ?_⟩ <;> simp [mkNewSessionMsg]
  · intro msgs rest hr h0 reqid hne
    unfold sshMuxAliveCheck
    simp only [hr]
    rw [if_neg (not_not_intro h0), if_pos hne, h0]
  · intro msgs rest hr h0 reqid hne
    unfold sshMuxPassFileDescriptors
    simp only [hr]
    rw [if_neg (not_not_intro h0), if_pos hne, h0]
  · intro w s1 e h1 h2
    unfold requestMuxSession
    simp only [h1, h2]
  · intro w s1 m r1 s2 e h1 h2 h3
    unfold requestMuxSession
    simp only [h1, h2, h3]

/-- C5 witness: a complete handshake over a concrete well-formed stream
(alive reply echoes 0, session-opened reply echoes 1, session id 7), plus
concrete mismatched replies (5 instead of 0, and 3 instead of 1) that
fail the respective step with the out-of-sequence error. -/
theorem c5_request_ids_witness :
    ({ helloWrites := writePacket (marshalMuxMsg ⟨muxMsgHello, muxVersion⟩)
       aliveSent := ⟨muxAliveCheck, 0⟩
       newSessionSent := mkNewSessionMsg 1 "" "ls"
       ctrlSessid := 7
       ctrlReqidFinal := 2 : HandshakeTrace}.aliveSent =
        ⟨muxAliveCheck, 0⟩ ∧
     (mkNewSessionMsg 1 "" "ls").RequestId = 1 ∧ (2 : Nat) = 2) ∧
    sshMuxAliveCheck 0
        (packetOf (be32enc muxIsAlive ++ (be32enc 5 ++ be32enc 42))) =
      .error (.outOfSequence muxIsAlive) ∧
    sshMuxPassFileDescriptors 1
        (packetOf (be32enc muxSessionOpened ++ (be32enc 3 ++ be32enc 7))) =
      .error (.outOfSequence muxSessionOpened) := by
  refine ⟨?_, ?_, ?_⟩
  · exact (c5_request_ids "" "ls"
      (packetOf (be32enc muxMsgHello ++ be32enc muxVersion) ++
       (packetOf (be32enc muxIsAlive ++ (be32enc 0 ++ be32enc 42)) ++
        packetOf (be32enc muxSessionOpened ++ (be32enc 1 ++ be32enc 7))))).1
      { helloWrites := writePacket (marshalMuxMsg ⟨muxMsgHello, muxVersion⟩)
        aliveSent := ⟨muxAliveCheck, 0⟩
        newSessionSent := mkNewSessionMsg 1 "" "ls"
        ctrlSessid := 7
        ctrlReqidFinal := 2 } (by rfl)
  · exact (c5_request_ids "" "ls"
      (packetOf (be32enc muxIsAlive ++ (be32enc 5 ++ be32enc 42)))).2.1
      [muxIsAlive, 5, 42] [] (by rfl) (by decide) 0 (by decide)
  · exact (c5_request_ids "" "ls"
      (packetOf (be32enc muxSessionOpened ++ (be32enc 3 ++ be32enc 7)))).2.2.1
      [muxSessionOpened, 3, 7] [] (by rfl) (by decide) 1 (by decide)

/-- C6: AwaitHello reads two uint32 fields from the first packet and
fails with the incompatible-hello error unless they equal the Hello type
code and protocol version 4; on success the client writes back a single
packet whose payload is the marshalled (Hello, version 4) pair — two
big-endian uint32 fields. -/
theorem c6_hello (stream msgs rest : List Nat)
    (hr : recvInts 2 stream = .ok (msgs, rest)) :
    (¬(msgs.getD 0 0 = muxMsgHello ∧ msgs.getD 1 0 = muxVersion) →
      sshMuxHello stream = .error .incompatibleHello) ∧
    (msgs.getD 0 0 = muxMsgHello → msgs.getD 1 0 = muxVersion →
      sshMuxHello stream =
        .ok (writePacket (marshalMuxMsg ⟨muxMsgHello, muxVersion⟩), rest)) ∧
    marshalMuxMsg ⟨muxMsgHello, muxVersion⟩ =
      be32enc muxMsgHello ++ be32enc muxVersion := by
  refine ⟨?_, ?_, rfl⟩
  · intro hne
    have hcond : msgs.getD 0 0 ≠ muxMsgHello ∨ msgs.getD 1 0 ≠ muxVersion := by
      tauto
    unfold sshMuxHello
    simp only [hr]
    rw [if_pos hcond]
  · intro h0 h1
    unfold sshMuxHello
    simp only [hr]
    rw [if_neg (not_or.mpr ⟨not_not_intro h0, not_not_intro h1⟩)]

/-- C6 witness: a wrong hello (type 2) is rejected and the correct hello
(1, 4) is answered with the marshalled pair. -/
theorem c6_hello_witness :
    sshMuxHello (packetOf (be32enc 2 ++ be32enc 4)) =
      .error .incompatibleHello ∧
    sshMuxHello (packetOf (be32enc 1 ++ be32enc 4)) =
      .ok (writePacket (marshalMuxMsg ⟨muxMsgHello, muxVersion⟩), []) := by
  constructor
  · exact (c6_hello (packetOf (be32enc 2 ++ be32enc 4)) [2, 4] []
      (by rfl)).1 (by decide)
  · exact (c6_hello (packetOf (be32enc 1 ++ be32enc 4)) [1, 4] []
      (by rfl)).2.1 (by decide) (by decide)
